import Mathlib

/-!
Shallow embedding of pgCarpenter's create-backup engine
(`create_backup.go`, variant with the storage abstraction).

The run is modelled as a pure function over
  - an `App` record (the configuration fields the engine reads),
  - an `Env` record of oracles for everything external: the pre-existing
    contents of remote storage, transient `GetString` faults, per-key
    `Put`/`PutString` success, `os.Stat` results, `util.Compress` results,
    and the outcomes of the start/stop database session calls,
  - the walk of the data directory, given as the list of callback events
    `filepath.Walk` delivers (a successful entry, an entry that vanished
    before being visited, or any other walk error).

Storage writes are recorded as a trace of `Write` events.  Each event
carries, besides the key and payload, the call site that produced it
(`WTag`) and, for the writes made by upload workers, the relative path the
object was derived from (`src`); this bookkeeping adds information to the
trace without changing what is written.

Concurrency is sequentialised: the walker hands relative paths to the
worker pool through an unbuffered channel and the control thread waits for
all workers before the marker phase, so worker writes are modelled as a
left fold over the emitted paths, placed before the stop/marker writes.
`logger.Fatal` (which calls `os.Exit`) is modelled as the `aborted` run
status: processing stops at that point and no further write occurs.

`filepath.Join` is modelled as slash concatenation (path cleaning is not
modelled); no claim depends on cleaning.  File sizes and the compression
threshold are modelled as `Nat`.
-/

/-- Two-argument `filepath.Join` as used by the engine: slash concatenation,
dropping an empty component. -/
def filepathJoin (a b : String) : String :=
  if a = "" then b else if b = "" then a else a ++ "/" ++ b

/-- `strings.HasPrefix(s, p)`, modelled over the character lists so that
it evaluates by structural recursion. -/
def leadsWith (s p : String) : Bool :=
  p.toList.isPrefixOf s.toList

/-- `strings.TrimPrefix`: drop `p` from the front of `s` when it is there. -/
def trimLeading (p s : String) : String :=
  if leadsWith s p then String.mk (s.toList.drop p.toList.length) else s

/-- Source line 21: there is no point on taking backups of directories like
log or pg_xlog. -/
def prefixesNotToBackup : List String := ["log", "pg_xlog", "postmaster.pid", "pg_replslot"]

/-- `ignoreFile`: true iff the path is in one of the directories we do not
need to backup (`strings.HasPrefix(path, d)` for some listed `d`). -/
def ignoreFile (path : String) : Bool :=
  prefixesNotToBackup.any fun d => leadsWith path d

/-- Modelled from the spec: `util.DirectoryExtension`, the suffix marking a
directory-placeholder object (the `util` package is outside the given
sources; the concrete string is irrelevant to every claim). -/
def directoryExtension : String := ".dir"

/-- `lz4.Extension`, the compression suffix appended to the key of a
compressed object. -/
def lz4Extension : String := ".lz4"

/-- Modelled from the spec: the folder that holds success markers
(`successful/<backupName>` in the spec's concrete scenario; the constant is
declared outside the given sources). -/
def successfullyCompletedFolder : String := "successful"

/-- Modelled from the spec: the key of the single mutable latest-pointer
object (declared outside the given sources). -/
def latestKey : String := "LATEST"

/-- `getSuccessfulMarker`: the key of a backup's success marker. -/
def getSuccessfulMarker (backupName : String) : String :=
  filepathJoin successfullyCompletedFolder backupName

/-- Payload of a storage write: either a small string object (`PutString`)
or a file upload (`Put key localPath modTime`). -/
inductive Obj where
  | strObj (s : String)
  | fileObj (localPath : String) (mtime : Nat)
  deriving DecidableEq

/-- The call site a storage write came from. -/
inductive WTag where
  | topLevel
  | uploadDir
  | uploadFile
  | stopArtifact
  | successMarker
  | latestPtr
  deriving DecidableEq

/-- One recorded storage write: key, payload, producing call site and, for
worker writes, the relative path it was derived from. -/
structure Write where
  key : String
  obj : Obj
  tag : WTag
  src : Option String
  deriving DecidableEq

/-- Result of `os.Stat` on an absolute path: any error (the worker skips on
every stat error), a directory, or a regular file with size and mtime. -/
inductive StatRes where
  | statErr
  | statDir
  | statFile (size : Nat) (mtime : Nat)
  deriving DecidableEq

/-- One `filepath.Walk` callback event: a successfully visited path, a
path whose error satisfies `os.IsNotExist` (vanished during the online
copy), or any other walk error. -/
inductive WalkItem where
  | entry (path : String)
  | vanished (path : String)
  | walkFault (path : String)
  deriving DecidableEq

/-- How the process ended: an explicit return code from `createBackup`, or
a `logger.Fatal` abort from a worker. -/
inductive RunStatus where
  | exitCode (n : Nat)
  | aborted
  deriving DecidableEq

/-- The configuration fields `createBackup` reads. -/
structure App where
  backupName : String
  pgDataDirectory : String
  compressThreshold : Nat
  deriving DecidableEq

/-- The external world the engine runs against. -/
structure Env where
  /-- pre-existing remote objects, keyed by string -/
  storage : String → Option String
  /-- transient `GetString` failure on a key that may well exist -/
  getFault : String → Bool
  /-- whether `Put`/`PutString` on this key succeeds -/
  putOk : String → Bool
  /-- `os.Stat` on an absolute path -/
  stat : String → StatRes
  /-- `util.Compress`: the temporary compressed file, or `none` on failure -/
  compress : String → Option String
  /-- whether `startBackup` (pg_start_backup) succeeds -/
  startOk : Bool
  /-- whether the `pg_stop_backup` query succeeds -/
  stopOk : Bool
  /-- backup_label content returned by pg_stop_backup -/
  labelFile : String
  /-- tablespace_map content returned by pg_stop_backup -/
  mapFile : String

/-- `GetString` returns without error iff the object exists and no
transient fault hits the lookup; `createBackup` only tests `err == nil`. -/
def getStringOk (env : Env) (key : String) : Bool :=
  (env.storage key).isSome && !env.getFault key

/-- Outcome of one iteration of `backupWorker`'s loop body: the writes it
performed and whether it called `logger.Fatal`. -/
structure StepRes where
  writes : List Write
  fatal : Bool
  deriving DecidableEq

/-- The body of `backupWorker` for one relative path: re-stat; skip on any
stat error; directories get an empty-payload placeholder at the relative
key plus `directoryExtension` (a failed placeholder write is fatal); files
strictly larger than the threshold are compressed and uploaded under the
key plus `lz4Extension` (a compression failure skips the file); other
files are uploaded raw; a failed upload is fatal. -/
def backupWorkerStep (a : App) (env : Env) (pgFile : String) : StepRes :=
  match env.stat (filepathJoin a.pgDataDirectory pgFile) with
  | .statErr => ⟨[], false⟩
  | .statDir =>
      if env.putOk (filepathJoin a.backupName pgFile ++ directoryExtension) then
        ⟨[⟨filepathJoin a.backupName pgFile ++ directoryExtension, .strObj "", .uploadDir,
           some pgFile⟩], false⟩
      else ⟨[], true⟩
  | .statFile size mtime =>
      if size > a.compressThreshold then
        match env.compress (filepathJoin a.pgDataDirectory pgFile) with
        | none => ⟨[], false⟩
        | some tmp =>
            if env.putOk (filepathJoin a.backupName pgFile ++ lz4Extension) then
              ⟨[⟨filepathJoin a.backupName pgFile ++ lz4Extension, .fileObj tmp mtime,
                 .uploadFile, some pgFile⟩], false⟩
            else ⟨[], true⟩
      else
        if env.putOk (filepathJoin a.backupName pgFile) then
          ⟨[⟨filepathJoin a.backupName pgFile,
             .fileObj (filepathJoin a.pgDataDirectory pgFile) mtime, .uploadFile,
             some pgFile⟩], false⟩
        else ⟨[], true⟩

/-- The worker pool drained sequentially: fold `backupWorkerStep` over the
relative paths handed off by the walker, stopping (with the writes made so
far) at the first fatal failure. -/
def runWorkers (a : App) (env : Env) : List String → List Write × Bool
  | [] => ([], false)
  | f :: fs =>
      if (backupWorkerStep a env f).fatal then ([], true)
      else ((backupWorkerStep a env f).writes ++ (runWorkers a env fs).1, (runWorkers a env fs).2)

/-- The walk callback of `uploadFiles` folded over the walk events: a
vanished entry is skipped (`return nil`); any other error aborts the walk
(the second component becomes `true`, entries already handed off are
kept); a visited path is trimmed to its relative form and handed off
unless `ignoreFile` matches. -/
def walkEmit (a : App) : List WalkItem → List String × Bool
  | [] => ([], false)
  | .entry p :: rest =>
      if ignoreFile (trimLeading a.pgDataDirectory p) then walkEmit a rest
      else (trimLeading a.pgDataDirectory p :: (walkEmit a rest).1, (walkEmit a rest).2)
  | .vanished _ :: rest => walkEmit a rest
  | .walkFault _ :: _ => ([], true)

/-- Result of `uploadFiles`: the worker writes, whether a worker aborted
the process, and the returned item count (the literal `1` on a walk
error — the source returns `1` in place of the count). -/
structure UploadRes where
  writes : List Write
  fatalAbort : Bool
  items : Nat
  deriving DecidableEq

/-- `uploadFiles`: walk the data directory, hand each non-ignored relative
path to the workers, and return the item count (or `1` after a walk
error; the error itself is only logged and not propagated). -/
def uploadFiles (a : App) (env : Env) (walk : List WalkItem) : UploadRes :=
  let e := walkEmit a walk
  let r := runWorkers a env e.1
  ⟨r.1, r.2, if e.2 then 1 else e.1.length⟩

/-- `stopBackup`: on query success, upload `backup_label` and, when
non-empty, `tablespace_map`; returns the writes performed and whether the
whole call succeeded. -/
def stopBackup (a : App) (env : Env) : List Write × Bool :=
  if !env.stopOk then ([], false)
  else
    let lkey := a.backupName ++ "/backup_label"
    if !env.putOk lkey then ([], false)
    else
      let lw : Write := ⟨lkey, .strObj env.labelFile, .stopArtifact, none⟩
      if env.mapFile = "" then ([lw], true)
      else
        let mkey := a.backupName ++ "/tablespace_map"
        if env.putOk mkey then ([lw, ⟨mkey, .strObj env.mapFile, .stopArtifact, none⟩], true)
        else ([lw], false)

/-- Outcome of a whole `createBackup` run: the trace of storage writes,
the final status, whether the run took the name-collision exit, and
whether `startBackup` was ever invoked. -/
structure RunResult where
  writes : List Write
  status : RunStatus
  collision : Bool
  sessionStarted : Bool
  deriving DecidableEq

/-- `createBackup`: reject when `GetString` on `<name>/` returns no error;
create the top-level placeholder; start the session; upload (a worker's
`logger.Fatal` aborts the process); stop the session; write the success
marker (a failure here is only logged); update the latest pointer; return
0. -/
def createBackup (a : App) (env : Env) (walk : List WalkItem) : RunResult :=
  let backupKey := a.backupName ++ "/"
  if getStringOk env backupKey then
    ⟨[], .exitCode 1, true, false⟩
  else if !env.putOk backupKey then
    ⟨[], .exitCode 1, false, false⟩
  else
    let w0 : List Write := [⟨backupKey, .strObj "", .topLevel, none⟩]
    if !env.startOk then
      ⟨w0, .exitCode 1, false, true⟩
    else
      let up := uploadFiles a env walk
      let w1 := w0 ++ up.writes
      if up.fatalAbort then
        ⟨w1, .aborted, false, true⟩
      else
        let stop := stopBackup a env
        let w2 := w1 ++ stop.1
        if !stop.2 then
          ⟨w2, .exitCode 1, false, true⟩
        else
          let mkey := getSuccessfulMarker a.backupName
          let w3 := w2 ++ (if env.putOk mkey then [⟨mkey, .strObj "", .successMarker, none⟩] else [])
          if env.putOk latestKey then
            ⟨w3 ++ [⟨latestKey, .strObj a.backupName, .latestPtr, none⟩], .exitCode 0, false, true⟩
          else
            ⟨w3, .exitCode 1, false, true⟩


/-!
Concrete configurations and environments used by the witness theorems.
-/

/-- Witness configuration: backup name `b`, data directory `data/`,
compression threshold 100 bytes. -/
def wApp : App := ⟨"b", "data/", 100⟩

/-- Witness environment: empty storage, every path stats as a 5-byte file,
and the upload of key `b/f` fails. -/
def wEnvFatal : Env :=
  ⟨fun _ => none, fun _ => false, fun k => !(k == "b/f"), fun _ => .statFile 5 0,
   fun _ => none, true, true, "L", ""⟩

/-- Witness walk: the single file `data/f`. -/
def wWalkFatal : List WalkItem := [WalkItem.entry "data/f"]

/-- Witness environment: everything succeeds except the write of the
success marker `successful/b`. -/
def wEnvMarkerFail : Env :=
  ⟨fun _ => none, fun _ => false, fun k => !(k == "successful/b"), fun _ => .statErr,
   fun _ => none, true, true, "L", ""⟩

/-- Witness environment: every storage operation succeeds. -/
def wEnvAllOk : Env :=
  ⟨fun _ => none, fun _ => false, fun _ => true, fun _ => .statErr,
   fun _ => none, true, true, "L", ""⟩

/-- Witness environment: an object already exists at the top-level key
`b/` and the lookup does not fault. -/
def wEnvExisting : Env :=
  ⟨fun k => if k == "b/" then some "" else none, fun _ => false, fun _ => true,
   fun _ => .statErr, fun _ => none, true, true, "L", ""⟩

/-- Witness environment: every path stats as a directory and every write
succeeds. -/
def wEnvDir : Env :=
  ⟨fun _ => none, fun _ => false, fun _ => true, fun _ => .statDir,
   fun _ => none, true, true, "L", ""⟩

/-- Witness environment: every path stats as a 200-byte file and
compression succeeds, producing `tmpz`. -/
def wEnvCompress : Env :=
  ⟨fun _ => none, fun _ => false, fun _ => true, fun _ => .statFile 200 7,
   fun _ => some "tmpz", true, true, "L", ""⟩

/-- Witness environment: every path stats as a 200-byte file and
compression fails. -/
def wEnvCompressFail : Env :=
  ⟨fun _ => none, fun _ => false, fun _ => true, fun _ => .statFile 200 7,
   fun _ => none, true, true, "L", ""⟩

/-- Witness environment: `b/` exists in storage but its lookup hits a
transient fault; everything else succeeds. -/
def wEnvFaulty : Env :=
  ⟨fun k => if k == "b/" then some "x" else none, fun k => k == "b/", fun _ => true,
   fun _ => .statErr, fun _ => none, true, true, "L", ""⟩

/-- Witness walk: one entry under the ignored `pg_xlog` tree and one plain
file. -/
def wWalk8 : List WalkItem := [WalkItem.entry "data/pg_xlog/0", WalkItem.entry "data/f"]

/-!
Helper lemmas about the shape of worker writes and the walk emission.
-/

/-- Every write a single worker iteration performs is tagged as an upload
write and carries the relative path it was derived from. -/
theorem backupWorkerStep_writes (a : App) (env : Env) (f : String) :
    ∀ w ∈ (backupWorkerStep a env f).writes,
      (w.tag = WTag.uploadDir ∨ w.tag = WTag.uploadFile) ∧ w.src = some f := by
  unfold backupWorkerStep
  split <;> (try split) <;> (try split) <;> (try split) <;> simp

/-- Every write the worker pool performs is an upload write derived from
one of the relative paths handed to it. -/
theorem runWorkers_writes (a : App) (env : Env) :
    ∀ fs : List String, ∀ w ∈ (runWorkers a env fs).1,
      ∃ f ∈ fs, (w.tag = WTag.uploadDir ∨ w.tag = WTag.uploadFile) ∧ w.src = some f := by
  intro fs
  induction fs with
  | nil => intro w hw; simp [runWorkers] at hw
  | cons f fs ih =>
      intro w hw
      unfold runWorkers at hw
      by_cases hfat : (backupWorkerStep a env f).fatal
      · rw [if_pos hfat] at hw
        simp at hw
      · rw [if_neg hfat] at hw
        simp only [List.mem_append] at hw
        rcases hw with hw | hw
        · exact ⟨f, by simp, backupWorkerStep_writes a env f w hw⟩
        · rcases ih w hw with ⟨g, hg, hp⟩
          exact ⟨g, by simp [hg], hp⟩

/-- Every relative path the walker hands to the worker pool fails the
ignore filter. -/
theorem walkEmit_not_ignored (a : App) :
    ∀ items : List WalkItem, ∀ rel ∈ (walkEmit a items).1, ignoreFile rel = false := by
  intro items
  induction items with
  | nil => intro rel h; simp [walkEmit] at h
  | cons it rest ih =>
      intro rel h
      cases it with
      | entry p =>
          unfold walkEmit at h
          by_cases hig : ignoreFile (trimLeading a.pgDataDirectory p)
          · rw [if_pos hig] at h
            exact ih rel h
          · rw [if_neg hig] at h
            simp only [List.mem_cons] at h
            rcases h with h | h
            · subst h; exact Bool.eq_false_iff.mpr hig
            · exact ih rel h
      | vanished p => unfold walkEmit at h; exact ih rel h
      | walkFault p => unfold walkEmit at h; simp at h

/-- Deleting a vanished entry from the walk does not change what the
walker emits nor whether it faults. -/
theorem walkEmit_vanished (a : App) (p : String) :
    ∀ pre post : List WalkItem,
      walkEmit a (pre ++ WalkItem.vanished p :: post) = walkEmit a (pre ++ post) := by
  intro pre
  induction pre with
  | nil => intro post; rfl
  | cons it rest ih =>
      intro post
      cases it with
      | entry q =>
          simp only [List.cons_append, List.append_eq, walkEmit]
          rw [ih post]
      | vanished q =>
          simp only [List.cons_append, List.append_eq, walkEmit]
          exact ih post
      | walkFault q => rfl

/-- Deleting a path whose re-stat fails from the worker input does not
change the pool's writes nor whether it aborts. -/
theorem runWorkers_statErr (a : App) (env : Env) (f : String)
    (hst : env.stat (filepathJoin a.pgDataDirectory f) = StatRes.statErr) :
    ∀ fpre fpost : List String,
      runWorkers a env (fpre ++ f :: fpost) = runWorkers a env (fpre ++ fpost) := by
  have hstep : backupWorkerStep a env f = ⟨[], false⟩ := by
    simp [backupWorkerStep, hst]
  intro fpre
  induction fpre with
  | nil =>
      intro fpost
      simp only [List.nil_append, runWorkers, hstep]
      simp
  | cons g rest ih =>
      intro fpost
      simp only [List.cons_append, List.append_eq, runWorkers]
      rw [ih fpost]

/-- C1: in any run that reaches the upload phase (no name collision, the
top-level placeholder write and the session start succeed) and in which
some worker's upload fails — `(uploadFiles …).fatalAbort` — the process
aborts via `logger.Fatal` and the trace contains no success-marker write
and no latest-pointer write, however many objects were already uploaded. -/
theorem createBackup_fatal_upload_never_writes_markers
    (a : App) (env : Env) (walk : List WalkItem)
    (hget : getStringOk env (a.backupName ++ "/") = false)
    (hput : env.putOk (a.backupName ++ "/") = true)
    (hstart : env.startOk = true)
    (hfatal : (uploadFiles a env walk).fatalAbort = true) :
    (createBackup a env walk).status = RunStatus.aborted ∧
      ∀ w ∈ (createBackup a env walk).writes,
        w.tag ≠ WTag.successMarker ∧ w.tag ≠ WTag.latestPtr := by
  have hred : createBackup a env walk =
      ⟨⟨a.backupName ++ "/", Obj.strObj "", WTag.topLevel, none⟩ ::
          (uploadFiles a env walk).writes,
        RunStatus.aborted, false, true⟩ := by
    simp [createBackup, hget, hput, hstart, hfatal]
  rw [hred]
  refine ⟨rfl, ?_⟩
  intro w hw
  simp only [List.mem_cons] at hw
  rcases hw with rfl | hw
  · exact ⟨by simp, by simp⟩
  · have hw' : w ∈ (runWorkers a env (walkEmit a walk).1).1 := hw
    rcases runWorkers_writes a env (walkEmit a walk).1 w hw' with ⟨f, _, hp, _⟩
    rcases hp with h | h <;> rw [h] <;> exact ⟨by simp, by simp⟩

/-- Witness for C1: with every path a small file and the upload of `b/f`
failing, the run aborts and writes neither marker. -/
theorem createBackup_fatal_upload_never_writes_markers_witness :
    (createBackup wApp wEnvFatal wWalkFatal).status = RunStatus.aborted ∧
      ∀ w ∈ (createBackup wApp wEnvFatal wWalkFatal).writes,
        w.tag ≠ WTag.successMarker ∧ w.tag ≠ WTag.latestPtr :=
  createBackup_fatal_upload_never_writes_markers wApp wEnvFatal wWalkFatal
    (by decide) (by decide) (by decide) (by decide)

/-- C4: when an object already exists at the candidate backup's top-level
key and the existence lookup does not hit a transient fault, the run
returns 1 at the collision check: no write is performed and the session is
never started. -/
theorem createBackup_name_collision_fail_fast
    (a : App) (env : Env) (walk : List WalkItem) (v : String)
    (hex : env.storage (a.backupName ++ "/") = some v)
    (hnf : env.getFault (a.backupName ++ "/") = false) :
    createBackup a env walk = ⟨[], RunStatus.exitCode 1, true, false⟩ := by
  have h : getStringOk env (a.backupName ++ "/") = true := by
    simp [getStringOk, hex, hnf]
  simp [createBackup, h]

/-- Witness for C4: storage already holds `b/`, and the run rejects with
exit code 1, an empty write trace and no session. -/
theorem createBackup_name_collision_fail_fast_witness :
    createBackup wApp wEnvExisting [] = ⟨[], RunStatus.exitCode 1, true, false⟩ :=
  createBackup_name_collision_fail_fast wApp wEnvExisting [] "" (by decide) (by decide)

/-- C5: a worker handed a path that stats as a directory writes an object
with empty payload at the backup-relative key plus the directory suffix
and continues with the remaining paths; if that placeholder write fails it
performs no write and the process aborts fatally. -/
theorem backupWorker_directory_placeholder
    (a : App) (env : Env) (f : String) (fs : List String)
    (hdir : env.stat (filepathJoin a.pgDataDirectory f) = StatRes.statDir) :
    runWorkers a env (f :: fs) =
      if env.putOk (filepathJoin a.backupName f ++ directoryExtension) then
        (⟨filepathJoin a.backupName f ++ directoryExtension, Obj.strObj "", WTag.uploadDir,
            some f⟩ :: (runWorkers a env fs).1,
          (runWorkers a env fs).2)
      else ([], true) := by
  by_cases hp : env.putOk (filepathJoin a.backupName f ++ directoryExtension)
  · have hstep : backupWorkerStep a env f =
        ⟨[⟨filepathJoin a.backupName f ++ directoryExtension, Obj.strObj "", WTag.uploadDir,
           some f⟩], false⟩ := by
      simp [backupWorkerStep, hdir, hp]
    simp [runWorkers, hstep, hp]
  · have hstep : backupWorkerStep a env f = ⟨[], true⟩ := by
      simp [backupWorkerStep, hdir, hp]
    simp [runWorkers, hstep, hp]

/-- Witness for C5: with `g` statting as a directory and all writes
succeeding, the pool writes the `b/g.dir` placeholder and continues. -/
theorem backupWorker_directory_placeholder_witness :
    runWorkers wApp wEnvDir ["g"] =
      if wEnvDir.putOk (filepathJoin wApp.backupName "g" ++ directoryExtension) then
        (⟨filepathJoin wApp.backupName "g" ++ directoryExtension, Obj.strObj "",
            WTag.uploadDir, some "g"⟩ :: (runWorkers wApp wEnvDir []).1,
          (runWorkers wApp wEnvDir []).2)
      else ([], true) :=
  backupWorker_directory_placeholder wApp wEnvDir "g" [] (by decide)

/-- C2 (failing input): when writing the success marker fails but every
other operation succeeds, `createBackup` does not abort — the failure is
only logged, the latest pointer is still written, and the run exits 0, so
the latest pointer names a backup whose success marker was never written.
This contradicts the claim that a marker write failure is fatal and leaves
the latest pointer untouched. -/
theorem createBackup_marker_failure_still_updates_latest :
    (createBackup wApp wEnvMarkerFail []).status = RunStatus.exitCode 0 ∧
      (∃ w ∈ (createBackup wApp wEnvMarkerFail []).writes, w.tag = WTag.latestPtr) ∧
      ∀ w ∈ (createBackup wApp wEnvMarkerFail []).writes, w.tag ≠ WTag.successMarker := by
  decide

/-- C3 (failing input): on a non-vanishing walk error, `uploadFiles` logs
it and returns the literal `1` in place of the item count; the error never
reaches `createBackup`, which goes on to close the session, write the
success marker and the latest pointer, and exit 0.  This contradicts the
claim that such an error surfaces to the control thread and terminates the
run as a failure without markers. -/
theorem createBackup_walk_error_still_succeeds :
    (uploadFiles wApp wEnvAllOk [WalkItem.walkFault "data/x"]).items = 1 ∧
      (createBackup wApp wEnvAllOk [WalkItem.walkFault "data/x"]).status = RunStatus.exitCode 0 ∧
      (∃ w ∈ (createBackup wApp wEnvAllOk [WalkItem.walkFault "data/x"]).writes,
          w.tag = WTag.successMarker) ∧
      ∃ w ∈ (createBackup wApp wEnvAllOk [WalkItem.walkFault "data/x"]).writes,
        w.tag = WTag.latestPtr := by
  decide

/-- C6: for a path that stats as a regular file, a size strictly above the
compression threshold makes the worker compress it and upload the
compressed temporary under the key bearing the compression suffix, while a
size at or below the threshold makes it upload the raw file under the key
without the suffix (either upload failing is fatal). -/
theorem backupWorker_compress_threshold
    (a : App) (env : Env) (f : String) (size mtime : Nat)
    (hst : env.stat (filepathJoin a.pgDataDirectory f) = StatRes.statFile size mtime) :
    (∀ tmp, size > a.compressThreshold →
        env.compress (filepathJoin a.pgDataDirectory f) = some tmp →
        backupWorkerStep a env f =
          if env.putOk (filepathJoin a.backupName f ++ lz4Extension) then
            ⟨[⟨filepathJoin a.backupName f ++ lz4Extension, Obj.fileObj tmp mtime,
               WTag.uploadFile, some f⟩], false⟩
          else ⟨[], true⟩) ∧
    (size ≤ a.compressThreshold →
        backupWorkerStep a env f =
          if env.putOk (filepathJoin a.backupName f) then
            ⟨[⟨filepathJoin a.backupName f,
               Obj.fileObj (filepathJoin a.pgDataDirectory f) mtime, WTag.uploadFile,
               some f⟩], false⟩
          else ⟨[], true⟩) := by
  constructor
  · intro tmp hgt hc
    simp [backupWorkerStep, hst, hgt, hc]
  · intro hle
    have hngt : ¬size > a.compressThreshold := not_lt.mpr hle
    simp [backupWorkerStep, hst, hngt]

/-- Witness for C6: a 200-byte file against the 100-byte threshold is
uploaded compressed under the `.lz4`-suffixed key. -/
theorem backupWorker_compress_threshold_witness :
    (∀ tmp, 200 > wApp.compressThreshold →
        wEnvCompress.compress (filepathJoin wApp.pgDataDirectory "g") = some tmp →
        backupWorkerStep wApp wEnvCompress "g" =
          if wEnvCompress.putOk (filepathJoin wApp.backupName "g" ++ lz4Extension) then
            ⟨[⟨filepathJoin wApp.backupName "g" ++ lz4Extension, Obj.fileObj tmp 7,
               WTag.uploadFile, some "g"⟩], false⟩
          else ⟨[], true⟩) ∧
    (200 ≤ wApp.compressThreshold →
        backupWorkerStep wApp wEnvCompress "g" =
          if wEnvCompress.putOk (filepathJoin wApp.backupName "g") then
            ⟨[⟨filepathJoin wApp.backupName "g",
               Obj.fileObj (filepathJoin wApp.pgDataDirectory "g") 7, WTag.uploadFile,
               some "g"⟩], false⟩
          else ⟨[], true⟩) :=
  backupWorker_compress_threshold wApp wEnvCompress "g" 200 7 (by decide)

/-- C7: when compression of a file fails, the worker uploads nothing for
that file — neither a compressed nor a raw object — and carries on with
the remaining paths exactly as if the file had not been handed off; the
failure does not abort the pool. -/
theorem backupWorker_compress_failure_skips
    (a : App) (env : Env) (f : String) (fs : List String) (size mtime : Nat)
    (hst : env.stat (filepathJoin a.pgDataDirectory f) = StatRes.statFile size mtime)
    (hgt : size > a.compressThreshold)
    (hc : env.compress (filepathJoin a.pgDataDirectory f) = none) :
    runWorkers a env (f :: fs) = runWorkers a env fs := by
  have hstep : backupWorkerStep a env f = ⟨[], false⟩ := by
    simp [backupWorkerStep, hst, hgt, hc]
  simp [runWorkers, hstep]

/-- Witness for C7: compression of the 200-byte file `g` fails, and the
pool's outcome on `[g]` equals its outcome on no input at all. -/
theorem backupWorker_compress_failure_skips_witness :
    runWorkers wApp wEnvCompressFail ["g"] = runWorkers wApp wEnvCompressFail [] :=
  backupWorker_compress_failure_skips wApp wEnvCompressFail "g" [] 200 7
    (by decide) (by decide) (by decide)

/-- C8: every relative path the walker hands to the worker pool fails the
ignore filter, and every object the upload phase writes is derived from
such a non-ignored path — so an entry whose relative path matches an
ignore prefix is never handed to a worker and no object is created for
it. -/
theorem createBackup_ignored_paths_never_uploaded
    (a : App) (env : Env) (walk : List WalkItem) :
    (∀ rel ∈ (walkEmit a walk).1, ignoreFile rel = false) ∧
      ∀ w ∈ (uploadFiles a env walk).writes,
        ∃ rel, w.src = some rel ∧ ignoreFile rel = false := by
  refine ⟨walkEmit_not_ignored a walk, ?_⟩
  intro w hw
  have hw' : w ∈ (runWorkers a env (walkEmit a walk).1).1 := hw
  rcases runWorkers_writes a env (walkEmit a walk).1 w hw' with ⟨f, hf, _, hsrc⟩
  exact ⟨f, hsrc, walkEmit_not_ignored a walk f hf⟩

/-- Witness for C8: in a walk containing `data/pg_xlog/0` and `data/f`,
the ignored relative path `pg_xlog/0` is not among the emitted paths, the
emitted path `f` is not ignored, and every upload write stems from a
non-ignored path. -/
theorem createBackup_ignored_paths_never_uploaded_witness :
    "pg_xlog/0" ∉ (walkEmit wApp wWalk8).1 ∧
      ignoreFile "f" = false ∧
      ∀ w ∈ (uploadFiles wApp wEnvAllOk wWalk8).writes,
        ∃ rel, w.src = some rel ∧ ignoreFile rel = false :=
  ⟨by decide,
    (createBackup_ignored_paths_never_uploaded wApp wEnvAllOk wWalk8).1 "f" (by decide),
    (createBackup_ignored_paths_never_uploaded wApp wEnvAllOk wWalk8).2⟩

/-- C9: an entry that vanishes is skipped without failing the run — a
vanished walk event leaves the whole `createBackup` outcome (and the walk
emission) unchanged, and a path whose worker re-stat fails leaves the
worker pool outcome unchanged; in particular neither makes the run fail. -/
theorem vanished_entries_skipped_run_unchanged
    (a : App) (env : Env) (p f : String) (pre post : List WalkItem)
    (fpre fpost : List String)
    (hst : env.stat (filepathJoin a.pgDataDirectory f) = StatRes.statErr) :
    createBackup a env (pre ++ WalkItem.vanished p :: post) =
        createBackup a env (pre ++ post) ∧
      walkEmit a (pre ++ WalkItem.vanished p :: post) = walkEmit a (pre ++ post) ∧
      runWorkers a env (fpre ++ f :: fpost) = runWorkers a env (fpre ++ fpost) := by
  have hwalk := walkEmit_vanished a p pre post
  have hup : uploadFiles a env (pre ++ WalkItem.vanished p :: post) =
      uploadFiles a env (pre ++ post) := by
    unfold uploadFiles
    rw [hwalk]
  refine ⟨?_, hwalk, runWorkers_statErr a env f hst fpre fpost⟩
  unfold createBackup
  rw [hup]

/-- Witness for C9: a vanished event and a stat-miss path leave the
concrete run, emission and pool outcome unchanged. -/
theorem vanished_entries_skipped_run_unchanged_witness :
    createBackup wApp wEnvAllOk ([] ++ WalkItem.vanished "data/x" :: []) =
        createBackup wApp wEnvAllOk ([] ++ []) ∧
      walkEmit wApp ([] ++ WalkItem.vanished "data/x" :: []) = walkEmit wApp ([] ++ []) ∧
      runWorkers wApp wEnvAllOk ([] ++ "g" :: []) = runWorkers wApp wEnvAllOk ([] ++ []) :=
  vanished_entries_skipped_run_unchanged wApp wEnvAllOk "data/x" "g" [] [] [] [] (by decide)

/-- C10: the collision rejection fires exactly when the `GetString`
existence lookup returns without error; any lookup error — transient or
not-found alike — is treated as no existing backup, so with a faulting
lookup the run proceeds past the check and starts the session even when
the top-level key exists in storage. -/
theorem createBackup_lookup_error_treated_as_absent
    (a : App) (env : Env) (walk : List WalkItem) :
    (createBackup a env walk).collision = getStringOk env (a.backupName ++ "/") ∧
      (env.getFault (a.backupName ++ "/") = true →
        env.putOk (a.backupName ++ "/") = true →
        env.startOk = true →
        (createBackup a env walk).sessionStarted = true) := by
  constructor
  · by_cases h : getStringOk env (a.backupName ++ "/") = true
    · simp [createBackup, h]
    · have h' : getStringOk env (a.backupName ++ "/") = false := by
        simpa using h
      simp only [createBackup, h', Bool.false_eq_true, if_false]
      split_ifs <;> simp [h']
  · intro hf hp hs
    have h' : getStringOk env (a.backupName ++ "/") = false := by
      simp [getStringOk, hf]
    simp only [createBackup, h', hp, hs, Bool.not_true, Bool.false_eq_true, if_false]
    split_ifs <;> rfl

/-- Witness for C10: storage holds `b/` but the lookup faults, the
collision exit is not taken, and the session is started over the existing
name. -/
theorem createBackup_lookup_error_treated_as_absent_witness :
    (wEnvFaulty.storage "b/").isSome = true ∧
      (createBackup wApp wEnvFaulty []).collision = false ∧
      (createBackup wApp wEnvFaulty []).sessionStarted = true :=
  ⟨by decide,
    ((createBackup_lookup_error_treated_as_absent wApp wEnvFaulty []).1).trans (by decide),
    (createBackup_lookup_error_treated_as_absent wApp wEnvFaulty []).2
      (by decide) (by decide) (by decide)⟩
